import Mathlib

/-!
Shallow embedding of the pyparrot Bebop control core (src/Bebop.py):
the sensor state store (BebopSensors), the telemetry dispatcher
(update_sensors), and the action controller (takeoff, land, safe_takeoff,
safe_land, fly_direct, flip, connect).

Python values that can be an int, a string or None are modelled by PyVal.
Python dicts keyed by field name are association lists with last-write-wins
replacement.  A raised exception (IndexError, TypeError) is modelled as an
explicit fault flag or error value; the state carried out on a fault is the
object state at the moment of the raise, which for every raise site in this
file is the state before any mutation of that call.
-/

/-- A Python value as used by the sensor store: None, an int, or a str. -/
inductive PyVal where
  | none : PyVal
  | int : Int → PyVal
  | str : String → PyVal
  deriving DecidableEq, Repr

/-- Convert the decoded raw sensor value (an optional int) to a PyVal. -/
def rawToVal : Option Int → PyVal
  | Option.none => PyVal.none
  | Option.some i => PyVal.int i

/-- Python list indexing with negative wrap-around: xs[i] returns the element,
or signals IndexError (modelled as Option.none) when out of range. -/
def pyIndex (xs : List String) (i : Int) : Option String :=
  let j : Int := if i < 0 then (xs.length : Int) + i else i
  if j < 0 then Option.none else xs[j.toNat]?

/-- Dict assignment d[k] = v on an association list: replace the binding of k
if present, otherwise append it. -/
def dictSet (d : List (String × PyVal)) (k : String) (v : PyVal) :
    List (String × PyVal) :=
  match d with
  | [] => [(k, v)]
  | (k0, v0) :: rest =>
      if k0 = k then (k0, v) :: rest else (k0, v0) :: dictSet rest k v

/-- Dict lookup d[k] on an association list. -/
def dictGet (d : List (String × PyVal)) (k : String) : Option PyVal :=
  match d with
  | [] => Option.none
  | (k0, v0) :: rest => if k0 = k then Option.some v0 else dictGet rest k

/-- The enum table passed to update: in the source it is keyed by the pair
(sensor_name, "enum"); the second component is the constant tag "enum", so the
table is embedded keyed by the sensor name alone. -/
def EnumTable := List (String × List String)

/-- Lookup of (sensor_name, "enum") in the enum table. -/
def enumLookup (e : EnumTable) (name : String) : Option (List String) :=
  match e with
  | [] => Option.none
  | (k0, v0) :: rest => if k0 = name then Option.some v0 else enumLookup rest name

/-- The BebopSensors object: the sensors_dict mapping plus the three derived
flags, as initialised and mutated in src/Bebop.py. -/
structure BebopSensors where
  sensors_dict : List (String × PyVal)
  RelativeMoveEnded : Bool
  CameraMoveEnded : Bool
  flying_state : PyVal
  deriving DecidableEq, Repr

/-- BebopSensors.\x7b\x7d is not meant here; the constructor state: empty dict,
both move flags False, flying_state the string "unknown". -/
def BebopSensors.init : BebopSensors :=
  { sensors_dict := [], RelativeMoveEnded := false, CameraMoveEnded := false,
    flying_state := PyVal.str "unknown" }

/-- Result of one BebopSensors.update call: the object state on exit (or at
the raise point when fault is true), the lines printed, and whether the call
raised (IndexError from indexing the enum list out of range). -/
structure UpdateResult where
  state : BebopSensors
  logs : List String
  fault : Bool
  deriving DecidableEq, Repr

/-- BebopSensors.update from src/Bebop.py lines 20-48.  Absent sensor_name:
print and return.  Enumerated field: sensor_value absent or greater than the
table length stores the UNKNOWN_ENUM_VALUE sentinel; otherwise the table is
indexed at sensor_value (an index equal to the table length raises
IndexError).  Non-enumerated field: the raw value is stored.  Then the three
derived flags are updated on exact name matches; flying_state is assigned the
raw sensor_value, not the resolved dict value. -/
def BebopSensors.update (st : BebopSensors) (sensor_name : Option String)
    (sensor_value : Option Int) (sensor_enum : EnumTable) : UpdateResult :=
  match sensor_name with
  | Option.none => { state := st, logs := ["Error empty sensor"], fault := false }
  | Option.some name =>
    let dictStep : Option BebopSensors :=
      match enumLookup sensor_enum name with
      | Option.some tbl =>
        match sensor_value with
        | Option.none =>
            Option.some { st with
              sensors_dict := dictSet st.sensors_dict name (PyVal.str "UNKNOWN_ENUM_VALUE") }
        | Option.some v =>
            if v > (tbl.length : Int) then
              Option.some { st with
                sensors_dict := dictSet st.sensors_dict name (PyVal.str "UNKNOWN_ENUM_VALUE") }
            else
              match pyIndex tbl v with
              | Option.some enum_value =>
                  Option.some { st with
                    sensors_dict := dictSet st.sensors_dict name (PyVal.str enum_value) }
              | Option.none => Option.none
      | Option.none =>
          Option.some { st with
            sensors_dict := dictSet st.sensors_dict name (rawToVal sensor_value) }
    match dictStep with
    | Option.none => { state := st, logs := [], fault := true }
    | Option.some st1 =>
      let st2 := if name = "FlyingStateChanged_state" then
          { st1 with flying_state := rawToVal sensor_value } else st1
      let st3 := if name = "PilotingEvent_moveByEnd" then
          { st2 with RelativeMoveEnded := true } else st2
      let st4 := if name = "CameraState_OrientationV2" then
          { st3 with CameraMoveEnded := true } else st3
      { state := st4, logs := [], fault := false }

/-- A decoded telemetry event as handed to the dispatcher loop:
(sensor_name, sensor_value, sensor_enum); the header tuple is unused. -/
def TelemetryEvent := Option String × Option Int × EnumTable

/-- Observable actions of one update_sensors call, in order. -/
inductive DEv where
  | applied : String → DEv
  | warned : DEv
  | acked : Nat → Nat → DEv
  deriving DecidableEq, Repr

/-- Result of update_sensors: final sensor state, ordered action trace, and
whether an exception propagated out of the event loop. -/
structure DispatchResult where
  state : BebopSensors
  trace : List DEv
  fault : Bool
  deriving DecidableEq, Repr

/-- The for-loop body of update_sensors over the decoded event list: a present
sensor_name is routed to update (a raised IndexError aborts the loop and
propagates), an absent one logs two warnings and processing continues. -/
def processEvents (st : BebopSensors) (events : List TelemetryEvent) :
    BebopSensors × List DEv × Bool :=
  match events with
  | [] => (st, [], false)
  | (name, value, enum) :: rest =>
    match name with
    | Option.some n =>
      let r := st.update (Option.some n) value enum
      if r.fault then (r.state, [], true)
      else
        let (st2, tr, f) := processEvents r.state rest
        (st2, DEv.applied n :: tr, f)
    | Option.none =>
      let (st2, tr, f) := processEvents st rest
      (st2, DEv.warned :: tr, f)

/-- Bebop.update_sensors from src/Bebop.py lines 70-89: run the event loop on
the decoded list (None when the parser produced nothing), then, if the ack
flag is set and no exception propagated, ack the packet by
(buffer_id, sequence_number). -/
def update_sensors (st : BebopSensors) (sensor_list : Option (List TelemetryEvent))
    (buffer_id sequence_number : Nat) (ack : Bool) : DispatchResult :=
  let (st1, tr, f) :=
    match sensor_list with
    | Option.none => (st, ([] : List DEv), false)
    | Option.some evs => processEvents st evs
  if f then { state := st1, trace := tr, fault := true }
  else if ack then
    { state := st1, trace := tr ++ [DEv.acked buffer_id sequence_number], fault := false }
  else { state := st1, trace := tr, fault := false }

/-- A resolved command tuple, identified by its (project, class, command)
lookup triple; resolution is a pure table lookup in the source. -/
structure CmdTuple where
  project : String
  cls : String
  cmd : String
  deriving DecidableEq, Repr

/-- Outcome of a direct action: the Python return value (Option.none models
the implicit None return) and the list of command sends it performed. -/
structure SendOutcome where
  ret : Option Bool
  sends : List CmdTuple
  deriving Repr

/-- Bebop.takeoff, src/Bebop.py lines 129-137: resolve the TakeOff tuple and
send it once through send_noparam_command_packet_ack; the send result is
discarded and the function falls off the end, returning None. -/
def takeoff (send_noparam_command_packet_ack : CmdTuple → Bool) : SendOutcome :=
  let command_tuple : CmdTuple :=
    { project := "ardrone3", cls := "Piloting", cmd := "TakeOff" }
  let _ := send_noparam_command_packet_ack command_tuple
  { ret := Option.none, sends := [command_tuple] }

/-- Bebop.land, src/Bebop.py lines 162-170: resolve the Landing tuple, send it
once through send_noparam_command_packet_ack and return the send result. -/
def land (send_noparam_command_packet_ack : CmdTuple → Bool) : SendOutcome :=
  let command_tuple : CmdTuple :=
    { project := "ardrone3", cls := "Piloting", cmd := "Landing" }
  { ret := Option.some (send_noparam_command_packet_ack command_tuple),
    sends := [command_tuple] }

/-- Bebop._ensure_fly_command_in_range, src/Bebop.py lines 199-211. -/
def ensure_fly_command_in_range (value : Int) : Int :=
  if value < -100 then -100
  else if value > 100 then 100
  else value

/-- The PCMD send performed by fly_direct: the four clamped axis values, the
duration, and the resolved command tuple. -/
structure PcmdSend where
  roll : Int
  pitch : Int
  yaw : Int
  vertical : Int
  duration : Int
  command_tuple : CmdTuple
  deriving DecidableEq, Repr

/-- Bebop.fly_direct, src/Bebop.py lines 213-236: clamp each axis with
_ensure_fly_command_in_range, resolve the PCMD tuple and send once through
send_pcmd_command. -/
def fly_direct (roll pitch yaw vertical_movement duration : Int) : PcmdSend :=
  let my_roll := ensure_fly_command_in_range roll
  let my_pitch := ensure_fly_command_in_range pitch
  let my_yaw := ensure_fly_command_in_range yaw
  let my_vertical := ensure_fly_command_in_range vertical_movement
  { roll := my_roll, pitch := my_pitch, yaw := my_yaw, vertical := my_vertical,
    duration := duration,
    command_tuple := { project := "ardrone3", cls := "Piloting", cmd := "PCMD" } }

/-- Python percent-formatting of a format string against its argument list.
The format string is given as the literal pieces around its conversion
specifiers (pieces.length = number of specifiers + 1); a count mismatch
raises TypeError, modelled as the error value. -/
def pyFormat : List String → List String → Option String
  | [last], [] => Option.some last
  | piece :: rest, arg :: args =>
      (pyFormat rest args).map (fun s => piece ++ arg ++ s)
  | _, _ => Option.none

/-- Python str.lower as used on the flip direction argument: lowercase each
character. -/
def pyLower (s : String) : String := String.mk (s.data.map Char.toLower)

/-- Outcome of a flip call: a TypeError raised while printing the
invalid-direction diagnostic, a graceful rejection with the printed lines, or
a completed send carrying the transport result. -/
inductive FlipOutcome where
  | typeError : FlipOutcome
  | ignored : List String → FlipOutcome
  | sent : Bool → FlipOutcome
  deriving DecidableEq, Repr

/-- Bebop.flip, src/Bebop.py lines 239-258: lowercase the direction, reject it
unless it is one of front/back/right/left, then resolve the lowercase variant
and send one enum command through send_enum_command_packet_ack.  The rejection
path first percent-formats an error message with two specifiers against the
single direction argument, which raises TypeError.  The second component
lists enum variants sent. -/
def Bebop.flip (send_enum_command_packet_ack : String → Bool) (direction : String) :
    FlipOutcome × List String :=
  let fixed_direction := pyLower direction
  if fixed_direction ∈ ["front", "back", "right", "left"] then
    (FlipOutcome.sent (send_enum_command_packet_ack fixed_direction), [fixed_direction])
  else
    match pyFormat
        ["Error: ", " is not a valid direction.  Must be one of ", ""]
        [direction] with
    | Option.some msg =>
        (FlipOutcome.ignored [msg, "Ignoring command and returning"], [])
    | Option.none => (FlipOutcome.typeError, [])

/-- Bebop.connect, src/Bebop.py lines 91-106: the first component is the
returned bool, the second records whether the transport connect was invoked. -/
def connect (drone_connection : Option (Nat → Bool)) (num_retries : Nat) :
    Bool × Bool :=
  match drone_connection with
  | Option.none => (false, false)
  | Option.some conn => (conn num_retries, true)

/-- Observable step of a safe takeoff or safe land run: a command send
through the acknowledged path, or one smart_sleep poll interval. -/
inductive FlightEv where
  | takeoffSent : FlightEv
  | landSent : FlightEv
  | slept : FlightEv
  deriving DecidableEq, Repr

/-- Second loop of Bebop.safe_takeoff (lines 155-159): while flying_state is
not flying or hovering and the deadline has not passed, return on emergency,
otherwise sleep one poll interval.  Time is the count of completed unit
sleeps since safe_takeoff began; sched t is the flying_state observed during
iteration t. -/
def safe_takeoff_phase2 (sched : Nat → PyVal) (timeout t : Nat) : List FlightEv :=
  if h : (sched t ≠ PyVal.str "flying" ∧ sched t ≠ PyVal.str "hovering") ∧ t < timeout then
    if sched t = PyVal.str "emergency" then []
    else FlightEv.slept :: safe_takeoff_phase2 sched timeout (t + 1)
  else []
termination_by timeout - t
decreasing_by omega

/-- First loop of Bebop.safe_takeoff (lines 146-152) followed by the second:
while flying_state is not takingoff and the deadline has not passed, return
on emergency, otherwise send takeoff and sleep one poll interval. -/
def safe_takeoff_loop (sched : Nat → PyVal) (timeout t : Nat) : List FlightEv :=
  if h : sched t ≠ PyVal.str "takingoff" ∧ t < timeout then
    if sched t = PyVal.str "emergency" then []
    else FlightEv.takeoffSent :: FlightEv.slept :: safe_takeoff_loop sched timeout (t + 1)
  else safe_takeoff_phase2 sched timeout t
termination_by timeout - t
decreasing_by omega

/-- Bebop.safe_takeoff, src/Bebop.py lines 139-159, as the trace of sends and
sleeps it performs. -/
def safe_takeoff (sched : Nat → PyVal) (timeout : Nat) : List FlightEv :=
  safe_takeoff_loop sched timeout 0

/-- Second loop of Bebop.safe_land (lines 185-188): while flying_state is not
landed and the deadline has not passed, return on emergency, otherwise sleep
one poll interval. -/
def safe_land_phase2 (sched : Nat → PyVal) (timeout t : Nat) : List FlightEv :=
  if h : sched t ≠ PyVal.str "landed" ∧ t < timeout then
    if sched t = PyVal.str "emergency" then []
    else FlightEv.slept :: safe_land_phase2 sched timeout (t + 1)
  else []
termination_by timeout - t
decreasing_by omega

/-- First loop of Bebop.safe_land (lines 178-183) followed by the second:
while flying_state is not landing or landed and the deadline has not passed,
return on emergency, otherwise send land and sleep one poll interval. -/
def safe_land_loop (sched : Nat → PyVal) (timeout t : Nat) : List FlightEv :=
  if h : (sched t ≠ PyVal.str "landing" ∧ sched t ≠ PyVal.str "landed") ∧ t < timeout then
    if sched t = PyVal.str "emergency" then []
    else FlightEv.landSent :: FlightEv.slept :: safe_land_loop sched timeout (t + 1)
  else safe_land_phase2 sched timeout t
termination_by timeout - t
decreasing_by omega

/-- Bebop.safe_land, src/Bebop.py lines 172-188, as the trace of sends and
sleeps it performs. -/
def safe_land (sched : Nat → PyVal) (timeout : Nat) : List FlightEv :=
  safe_land_loop sched timeout 0

/-- Recogniser for the acknowledge action in a dispatch trace. -/
def isAck : DEv → Bool := fun ev =>
  match ev with
  | DEv.acked _ _ => true
  | _ => false

/-- Claim C1: for an enumerated field, an absent raw value or one strictly
above the table length is stored as the UNKNOWN_ENUM_VALUE sentinel, but a
raw value exactly equal to the table length escapes the guard (the source
compares with strict greater-than) and the enum list is indexed out of range,
raising IndexError: the update faults instead of storing the sentinel.
Evaluated on a two-element enum table at raw values 2, 3 and absent. -/
theorem c1_enum_index_at_length_faults :
    (BebopSensors.init.update (Option.some "f") (Option.some 2) [("f", ["a", "b"])]).fault
      = true ∧
    (BebopSensors.init.update (Option.some "f") (Option.some 3) [("f", ["a", "b"])]).state.sensors_dict
      = [("f", PyVal.str "UNKNOWN_ENUM_VALUE")] ∧
    (BebopSensors.init.update (Option.some "f") Option.none [("f", ["a", "b"])]).state.sensors_dict
      = [("f", PyVal.str "UNKNOWN_ENUM_VALUE")] := by decide

/-- Claim C2: the flying_state flag starts as the string sentinel unknown,
but an update of FlyingStateChanged_state with an enumerated table writes the
resolved label into the mapping while assigning the raw index to the
flying_state flag: after the update the flag (the int 1) differs from the
mapping value (the string takingoff). -/
theorem c2_flying_state_gets_raw_value :
    BebopSensors.init.flying_state = PyVal.str "unknown" ∧
    (BebopSensors.init.update (Option.some "FlyingStateChanged_state") (Option.some 1)
        [("FlyingStateChanged_state", ["landed", "takingoff"])]).state.flying_state
      = PyVal.int 1 ∧
    dictGet (BebopSensors.init.update (Option.some "FlyingStateChanged_state") (Option.some 1)
        [("FlyingStateChanged_state", ["landed", "takingoff"])]).state.sensors_dict
        "FlyingStateChanged_state"
      = Option.some (PyVal.str "takingoff") ∧
    PyVal.int 1 ≠ PyVal.str "takingoff" := by decide

/-- Claim C3: takeoff and land each perform exactly one send through the
acknowledged path, but takeoff discards the transport result and returns
None (even when the transport accepts the command), while land returns the
transport boolean as the claim describes. -/
theorem c3_takeoff_returns_none :
    (takeoff (fun _ => true)).ret = Option.none ∧
    (takeoff (fun _ => true)).sends
      = [{ project := "ardrone3", cls := "Piloting", cmd := "TakeOff" }] ∧
    (land (fun _ => true)).ret = Option.some true ∧
    (land (fun _ => false)).ret = Option.some false ∧
    (land (fun _ => true)).sends
      = [{ project := "ardrone3", cls := "Piloting", cmd := "Landing" }] := by
  exact ⟨rfl, rfl, rfl, rfl, rfl⟩

/-- Bounds and the three clamping cases for _ensure_fly_command_in_range. -/
theorem ensure_fly_command_in_range_spec (x : Int) :
    (-100 ≤ ensure_fly_command_in_range x ∧ ensure_fly_command_in_range x ≤ 100) ∧
    (x < -100 → ensure_fly_command_in_range x = -100) ∧
    (100 < x → ensure_fly_command_in_range x = 100) ∧
    (-100 ≤ x → x ≤ 100 → ensure_fly_command_in_range x = x) := by
  unfold ensure_fly_command_in_range
  split_ifs <;> omega

/-- Claim C4: fly_direct clamps each axis independently to [-100, 100]: a
value below -100 becomes -100, a value above 100 becomes 100, an in-range
value passes through unchanged, and each sent axis is a function of its own
input alone (it equals _ensure_fly_command_in_range of that input). -/
theorem c4_fly_direct_clamps (r p y v d : Int) :
    ((-100 ≤ (fly_direct r p y v d).roll ∧ (fly_direct r p y v d).roll ≤ 100) ∧
      (r < -100 → (fly_direct r p y v d).roll = -100) ∧
      (100 < r → (fly_direct r p y v d).roll = 100) ∧
      (-100 ≤ r → r ≤ 100 → (fly_direct r p y v d).roll = r)) ∧
    ((-100 ≤ (fly_direct r p y v d).pitch ∧ (fly_direct r p y v d).pitch ≤ 100) ∧
      (p < -100 → (fly_direct r p y v d).pitch = -100) ∧
      (100 < p → (fly_direct r p y v d).pitch = 100) ∧
      (-100 ≤ p → p ≤ 100 → (fly_direct r p y v d).pitch = p)) ∧
    ((-100 ≤ (fly_direct r p y v d).yaw ∧ (fly_direct r p y v d).yaw ≤ 100) ∧
      (y < -100 → (fly_direct r p y v d).yaw = -100) ∧
      (100 < y → (fly_direct r p y v d).yaw = 100) ∧
      (-100 ≤ y → y ≤ 100 → (fly_direct r p y v d).yaw = y)) ∧
    ((-100 ≤ (fly_direct r p y v d).vertical ∧ (fly_direct r p y v d).vertical ≤ 100) ∧
      (v < -100 → (fly_direct r p y v d).vertical = -100) ∧
      (100 < v → (fly_direct r p y v d).vertical = 100) ∧
      (-100 ≤ v → v ≤ 100 → (fly_direct r p y v d).vertical = v)) ∧
    ((fly_direct r p y v d).roll = ensure_fly_command_in_range r ∧
      (fly_direct r p y v d).pitch = ensure_fly_command_in_range p ∧
      (fly_direct r p y v d).yaw = ensure_fly_command_in_range y ∧
      (fly_direct r p y v d).vertical = ensure_fly_command_in_range v) :=
  ⟨ensure_fly_command_in_range_spec r, ensure_fly_command_in_range_spec p,
   ensure_fly_command_in_range_spec y, ensure_fly_command_in_range_spec v,
   rfl, rfl, rfl, rfl⟩

/-- Witness for claim C4 at the concrete call
fly_direct(-150, 150, 0, 37, 5): roll clamps to -100, pitch to 100, yaw and
vertical pass through. -/
theorem c4_fly_direct_clamps_witness :
    (fly_direct (-150) 150 0 37 5).roll = -100 ∧
    (fly_direct (-150) 150 0 37 5).pitch = 100 ∧
    (fly_direct (-150) 150 0 37 5).yaw = 0 ∧
    (fly_direct (-150) 150 0 37 5).vertical = 37 :=
  ⟨(c4_fly_direct_clamps (-150) 150 0 37 5).1.2.1 (by decide),
   (c4_fly_direct_clamps (-150) 150 0 37 5).2.1.2.2.1 (by decide),
   (c4_fly_direct_clamps (-150) 150 0 37 5).2.2.1.2.2.2 (by decide) (by decide),
   (c4_fly_direct_clamps (-150) 150 0 37 5).2.2.2.1.2.2.2 (by decide) (by decide)⟩

/-- Claim C5: flip matches the direction case-insensitively against
front/back/right/left and a valid direction sends exactly one enum command
with the lowercase variant; but the invalid-direction branch percent-formats
a two-specifier message against the single direction argument, which raises
TypeError, so flip("UP") faults instead of printing the diagnostic and
returning gracefully.  No command is sent on the invalid path. -/
theorem c5_flip_invalid_direction_raises :
    Bebop.flip (fun _ => true) "UP" = (FlipOutcome.typeError, []) ∧
    Bebop.flip (fun _ => true) "Left" = (FlipOutcome.sent true, ["left"]) ∧
    Bebop.flip (fun _ => false) "Left" = (FlipOutcome.sent false, ["left"]) ∧
    (∀ accepted logs, Bebop.flip (fun _ => true) "UP" ≠ (FlipOutcome.sent accepted, logs)) ∧
    (∀ logs sends, Bebop.flip (fun _ => true) "UP" ≠ (FlipOutcome.ignored logs, sends)) := by
  have h0 : Bebop.flip (fun _ => true) "UP" = (FlipOutcome.typeError, []) := by decide
  refine ⟨h0, by decide, by decide, ?_, ?_⟩ <;> intro a b <;> rw [h0] <;> simp

/-- Claim C6: an update with an absent field name only logs a warning, does
not fault, and leaves the whole sensor state (mapping and flags) unchanged;
and in a dispatched batch an event with an absent field name contributes one
warning to the trace and leaves the processing of the remaining events, the
final state and the fault outcome exactly as if it were not there. -/
theorem c6_absent_name_is_harmless (st : BebopSensors) (v : Option Int) (e : EnumTable)
    (rest : List TelemetryEvent) (bid seq : Nat) (a : Bool) :
    st.update Option.none v e
      = { state := st, logs := ["Error empty sensor"], fault := false } ∧
    (update_sensors st (Option.some ((Option.none, v, e) :: rest)) bid seq a).state
      = (update_sensors st (Option.some rest) bid seq a).state ∧
    (update_sensors st (Option.some ((Option.none, v, e) :: rest)) bid seq a).trace
      = DEv.warned :: (update_sensors st (Option.some rest) bid seq a).trace ∧
    (update_sensors st (Option.some ((Option.none, v, e) :: rest)) bid seq a).fault
      = (update_sensors st (Option.some rest) bid seq a).fault := by
  refine ⟨rfl, ?_, ?_, ?_⟩ <;>
  · simp only [update_sensors, processEvents]
    rcases hpe : processEvents st rest with ⟨st2, tr, f⟩
    cases f <;> cases a <;> simp

/-- The event loop itself never emits an acknowledge action. -/
theorem processEvents_no_ack (st : BebopSensors) (evs : List TelemetryEvent) :
    ((processEvents st evs).2.1).filter isAck = [] := by
  induction evs generalizing st with
  | nil => rfl
  | cons ev rest ih =>
    obtain ⟨name, value, enum⟩ := ev
    cases name with
    | none =>
      simp only [processEvents]
      rcases hpe : processEvents st rest with ⟨st2, tr, f⟩
      have h0 := ih st
      rw [hpe] at h0
      simpa [isAck] using h0
    | some n =>
      simp only [processEvents]
      by_cases hf : (st.update (Option.some n) value enum).fault
      · simp [hf]
      · rcases hpe : processEvents (st.update (Option.some n) value enum).state rest with ⟨st2, tr, f⟩
        have h0 := ih (st.update (Option.some n) value enum).state
        rw [hpe] at h0
        simp [hf, isAck]
        simpa [isAck] using h0

/-- Counterexample to claim C7 as stated: a packet whose ack flag is set and
whose single event carries an enumerated raw index equal to the enum table
length makes the update raise, the exception propagates out of the event
loop, and the acknowledge function is never called for the packet (the trace
is empty, so in particular it holds no acknowledge action). -/
theorem c7_ack_skipped_on_fault :
    (update_sensors BebopSensors.init
        (Option.some [(Option.some "f", Option.some 2, [("f", ["a", "b"])])]) 1 2 true).trace
      = [] ∧
    (update_sensors BebopSensors.init
        (Option.some [(Option.some "f", Option.some 2, [("f", ["a", "b"])])]) 1 2 true).fault
      = true := by decide

/-- Claim C7 (amended): when the whole event loop completes without a raised
exception, a packet with the ack flag set produces the event trace followed
by exactly one acknowledge action for (buffer_id, sequence_number); and with
the ack flag clear the trace holds no acknowledge action at all. -/
theorem c7_ack_exactly_once_after_events (st : BebopSensors)
    (lst : Option (List TelemetryEvent)) (bid seq : Nat) :
    ((update_sensors st lst bid seq true).fault = false →
      (update_sensors st lst bid seq true).trace
        = (update_sensors st lst bid seq false).trace ++ [DEv.acked bid seq]) ∧
    ((update_sensors st lst bid seq false).trace.filter isAck = []) := by
  cases lst with
  | none => exact ⟨fun _ => rfl, rfl⟩
  | some evs =>
    constructor
    · intro hfault
      simp only [update_sensors] at hfault ⊢
      rcases hpe : processEvents st evs with ⟨st2, tr, f⟩
      rw [hpe] at hfault
      cases f
      · simp
      · simp at hfault
    · have h0 := processEvents_no_ack st evs
      simp only [update_sensors]
      rcases hpe : processEvents st evs with ⟨st2, tr, f⟩
      rw [hpe] at h0
      cases f <;> simpa using h0

/-- Witness for claim C7 (amended) on a one-event packet that applies
cleanly: the acked action follows the event trace exactly once. -/
theorem c7_ack_exactly_once_witness :
    (update_sensors BebopSensors.init
        (Option.some [(Option.some "g", Option.some 7, [])]) 3 4 true).trace
      = (update_sensors BebopSensors.init
          (Option.some [(Option.some "g", Option.some 7, [])]) 3 4 false).trace
        ++ [DEv.acked 3 4] ∧
    (update_sensors BebopSensors.init
        (Option.some [(Option.some "g", Option.some 7, [])]) 3 4 false).trace.filter isAck
      = [] :=
  ⟨(c7_ack_exactly_once_after_events BebopSensors.init
      (Option.some [(Option.some "g", Option.some 7, [])]) 3 4).1 (by decide),
   (c7_ack_exactly_once_after_events BebopSensors.init
      (Option.some [(Option.some "g", Option.some 7, [])]) 3 4).2⟩

/-- Claim C8: in safe_takeoff and safe_land, whenever the flying state
observed at the start of an iteration of either phase is emergency, the
remaining run emits no command send and no sleep, whatever the timeout and
the elapsed time: both phase loops return the empty trace from that point. -/
theorem c8_emergency_aborts (sched : Nat → PyVal) (timeout t : Nat)
    (h : sched t = PyVal.str "emergency") :
    safe_takeoff_loop sched timeout t = [] ∧ safe_takeoff_phase2 sched timeout t = [] ∧
    safe_land_loop sched timeout t = [] ∧ safe_land_phase2 sched timeout t = [] := by
  have htp2 : safe_takeoff_phase2 sched timeout t = [] := by
    rw [safe_takeoff_phase2]
    split_ifs <;> rfl
  have hlp2 : safe_land_phase2 sched timeout t = [] := by
    rw [safe_land_phase2]
    split_ifs <;> rfl
  have htp1 : safe_takeoff_loop sched timeout t = [] := by
    rw [safe_takeoff_loop]
    split_ifs <;> first | rfl | exact htp2
  have hlp1 : safe_land_loop sched timeout t = [] := by
    rw [safe_land_loop]
    split_ifs <;> first | rfl | exact hlp2
  exact ⟨htp1, htp2, hlp1, hlp2⟩

/-- Witness for claim C8 with a schedule that is already in emergency at
iteration 0 and a five-unit timeout budget remaining. -/
theorem c8_emergency_aborts_witness :
    safe_takeoff_loop (fun _ => PyVal.str "emergency") 5 0 = [] ∧
    safe_takeoff_phase2 (fun _ => PyVal.str "emergency") 5 0 = [] ∧
    safe_land_loop (fun _ => PyVal.str "emergency") 5 0 = [] ∧
    safe_land_phase2 (fun _ => PyVal.str "emergency") 5 0 = [] :=
  c8_emergency_aborts (fun _ => PyVal.str "emergency") 5 0 rfl

/-- Claim C9: each derived flag changes only on an exact match of its
triggering field name: an update under any other name (or under an absent
name) leaves flying_state, RelativeMoveEnded and CameraMoveEnded unchanged,
and the two move flags, once true, stay true after any further update. -/
theorem c9_derived_flags_exact_match (st : BebopSensors) (name : Option String)
    (v : Option Int) (e : EnumTable) :
    (name ≠ Option.some "FlyingStateChanged_state" →
      (st.update name v e).state.flying_state = st.flying_state) ∧
    (name ≠ Option.some "PilotingEvent_moveByEnd" →
      (st.update name v e).state.RelativeMoveEnded = st.RelativeMoveEnded) ∧
    (name ≠ Option.some "CameraState_OrientationV2" →
      (st.update name v e).state.CameraMoveEnded = st.CameraMoveEnded) ∧
    (st.RelativeMoveEnded = true → (st.update name v e).state.RelativeMoveEnded = true) ∧
    (st.CameraMoveEnded = true → (st.update name v e).state.CameraMoveEnded = true) := by
  cases name with
  | none => simp [BebopSensors.update]
  | some n =>
    unfold BebopSensors.update
    refine ⟨?_, ?_, ?_, ?_, ?_⟩ <;> intro h <;> (repeat' split) <;> simp_all

/-- Witness for claim C9: an update of an unrelated scalar field on a state
whose RelativeMoveEnded flag is already true leaves all three flags as they
were. -/
theorem c9_derived_flags_witness :
    (({ sensors_dict := [], RelativeMoveEnded := true, CameraMoveEnded := false,
        flying_state := PyVal.str "unknown" } : BebopSensors).update
        (Option.some "AltitudeChanged_altitude") (Option.some 3) []).state.flying_state
      = PyVal.str "unknown" ∧
    (({ sensors_dict := [], RelativeMoveEnded := true, CameraMoveEnded := false,
        flying_state := PyVal.str "unknown" } : BebopSensors).update
        (Option.some "AltitudeChanged_altitude") (Option.some 3) []).state.CameraMoveEnded
      = false ∧
    (({ sensors_dict := [], RelativeMoveEnded := true, CameraMoveEnded := false,
        flying_state := PyVal.str "unknown" } : BebopSensors).update
        (Option.some "AltitudeChanged_altitude") (Option.some 3) []).state.RelativeMoveEnded
      = true :=
  ⟨(c9_derived_flags_exact_match
      { sensors_dict := [], RelativeMoveEnded := true, CameraMoveEnded := false,
        flying_state := PyVal.str "unknown" }
      (Option.some "AltitudeChanged_altitude") (Option.some 3) []).1 (by decide),
   (c9_derived_flags_exact_match
      { sensors_dict := [], RelativeMoveEnded := true, CameraMoveEnded := false,
        flying_state := PyVal.str "unknown" }
      (Option.some "AltitudeChanged_altitude") (Option.some 3) []).2.2.1 (by decide),
   (c9_derived_flags_exact_match
      { sensors_dict := [], RelativeMoveEnded := true, CameraMoveEnded := false,
        flying_state := PyVal.str "unknown" }
      (Option.some "AltitudeChanged_altitude") (Option.some 3) []).2.2.2.1 rfl⟩

/-- Claim C10: connect returns False at once when the connection handle is
absent, performing no transport call, and otherwise returns exactly the
transport connect result (the second component records whether the transport
was invoked). -/
theorem c10_connect_absent_handle (n : Nat) (f : Nat → Bool) :
    connect Option.none n = (false, false) ∧ connect (Option.some f) n = (f n, true) :=
  ⟨rfl, rfl⟩
